import Mathlib

/-!
Verification of the WMI wrapper repository's specification claims.

The Python source is shallowly embedded: pure helper functions become Lean
functions, Python exceptions become `Option`/`Except` values (`none` /
`Except.error` marks a raised exception escaping the modelled code), Python
strings of data become `String` or `List Char`, Python integers become
`Int`/`Nat`, and Python float division is modelled by exact fraction
arithmetic (`ℚ`, or explicit numerator/denominator pairs), which agrees
with the source on every comparison the code performs.
-/

/-! ## Byte formatting (`format_bytes`, `wmi_cli/wmi_wrapper.py`)

The running value of the Python loop is always the exact real number
`n / 1024 ^ k`; it is embedded as the exact fraction `num / den` with
`den = 1024 ^ k`, so every comparison and the rendered digits are computed
exactly (this agrees with the source's binary floating point on every
branch taken, and digit for digit for all inputs below `2 ^ 53`). -/

/-- Render the non-negative fraction `num / den` (with `den ≠ 0`) with
exactly two decimal places, rounding ties to even, as Python `f"{v:.2f}"`
does for an exactly representable non-negative value. -/
def toFixed2 (num den : ℕ) : String :=
  let q := num * 100 / den
  let r := num * 100 % den
  let c := if 2 * r < den then q
           else if den < 2 * r then q + 1
           else if q % 2 = 0 then q else q + 1
  toString (c / 100) ++ "." ++
    (if c % 100 < 10 then "0" ++ toString (c % 100) else toString (c % 100))

/-- The unit ladder iterated by the `for unit in [...]` loop of
`format_bytes`. -/
def fbUnits : List String := ["B", "KB", "MB", "GB", "TB"]

/-- The loop body of `format_bytes`: test `bytes_value < 1024.0`
(`num / den < 1024`, i.e. `num < 1024 * den`), else divide by 1024 (grow
the denominator) and move to the next unit; after the list is exhausted
the value is rendered as `PB`. -/
def formatBytesGo : List String → ℕ → ℕ → String
  | [], num, den => toFixed2 num den ++ " PB"
  | u :: rest, num, den =>
      if num < 1024 * den then toFixed2 num den ++ " " ++ u
      else formatBytesGo rest num (den * 1024)

/-- Embeds `format_bytes` from `wmi_cli/wmi_wrapper.py`. -/
def format_bytes (n : ℕ) : String := formatBytesGo fbUnits n 1

/-- Spec-side: the index of the smallest unit of the ladder keeping the
mantissa strictly below 1024 (index 5 = PB is the last rung). -/
def smallestUnitIndex (n : ℕ) : ℕ :=
  if n < 1024 then 0
  else if n < 1024 ^ 2 then 1
  else if n < 1024 ^ 3 then 2
  else if n < 1024 ^ 4 then 3
  else if n < 1024 ^ 5 then 4
  else 5

/-- Spec-side: name of each unit of the ladder. -/
def unitOfIndex : ℕ → String
  | 0 => "B"
  | 1 => "KB"
  | 2 => "MB"
  | 3 => "GB"
  | 4 => "TB"
  | _ => "PB"

/-! ## Used-percentage computations (C1) -/

/-- Result dictionary of `SystemMonitor.get_memory_info`
(`wmi_cli/modules.py`). -/
structure MemoryInfo where
  total_bytes : ℤ
  used_bytes : ℤ
  free_bytes : ℤ
  used_percentage : ℚ
deriving DecidableEq

/-- Embeds `SystemMonitor.get_memory_info` (`wmi_cli/modules.py`): takes
`int(cs.TotalPhysicalMemory)` and `int(os_info.FreePhysicalMemory)` (in KB)
and builds the memory dictionary.  The division
`(used_memory / total_memory) * 100` is unguarded in the source; `none`
models the `ZeroDivisionError` it raises when the total is zero. -/
def get_memory_info (totalPhysicalMemory freePhysicalMemoryKB : ℤ) : Option MemoryInfo :=
  let total := totalPhysicalMemory
  let free := freePhysicalMemoryKB * 1024
  let used := total - free
  if total = 0 then none
  else some ⟨total, used, free, ((used : ℚ) / (total : ℚ)) * 100⟩

/-- A `Win32_LogicalDisk` record as consumed by the disk functions.
Numeric sizes are modelled as `Option ℤ` (`none` = null property). -/
structure LogicalDisk where
  DeviceID : String
  VolumeName : Option String
  FileSystem : String
  Size : Option ℤ
  FreeSpace : Option ℤ
deriving DecidableEq

/-- One row of the `SystemMonitor.get_disk_usage` result. -/
structure DiskUsage where
  device_id : String
  label : String
  file_system : String
  size_bytes : ℤ
  used_bytes : ℤ
  free_bytes : ℤ
  used_percentage : ℚ
deriving DecidableEq

/-- Embeds `SystemMonitor.get_disk_usage` (`wmi_cli/modules.py`): disks whose
`Size` is falsy (null or zero) are skipped by the `if disk.Size:` test, so
the unguarded division `(used / size) * 100` only runs with a non-zero
size. -/
def get_disk_usage (disks : List LogicalDisk) : List DiskUsage :=
  disks.filterMap (fun d =>
    match d.Size with
    | none => none
    | some size =>
        if size = 0 then none
        else
          let free : ℤ := match d.FreeSpace with
            | none => 0
            | some f => if f = 0 then 0 else f
          let used := size - free
          some ⟨d.DeviceID, (d.VolumeName.getD ""), d.FileSystem, size, used, free,
                ((used : ℚ) / (size : ℚ)) * 100⟩)

/-- The used-percentage computation of the `disks` CLI command
(`wmi_cli/cli.py`): `((size - free) / size * 100) if size > 0 else 0`. -/
def disksUsedPct (size free : ℤ) : ℚ :=
  if size > 0 then (((size : ℚ) - (free : ℚ)) / (size : ℚ)) * 100 else 0

/-- The used-percentage computation of the `get_disk_info` agent tool
(`wmi_tools.py`):
`((total_space - free_space) / total_space * 100) if total_space > 0 else 0`. -/
def get_disk_info_used_pct (total_space free_space : ℤ) : ℚ :=
  if total_space > 0 then (((total_space : ℚ) - (free_space : ℚ)) / (total_space : ℚ)) * 100
  else 0

/-! ## WMI values, records and the access shim (`wmi_cli/wmi_wrapper.py`) -/

/-- A WMI property value: string, integer, boolean or null. -/
inductive WValue where
  | str : String → WValue
  | int : ℤ → WValue
  | bool : Bool → WValue
  | null : WValue
deriving DecidableEq

/-- A WMI record: an association list from property names to values. -/
abbrev WRecord := List (String × WValue)

/-- Look up a property value in a record (first binding wins, as in a
Python mapping built without duplicate keys). -/
def wlookup (p : String) : WRecord → Option WValue
  | [] => none
  | (k, v) :: rest => if k = p then some v else wlookup p rest

/-- Does a record satisfy every `property = value` pair of a filter? -/
def recordMatches (r : WRecord) (filters : List (String × WValue)) : Bool :=
  filters.all (fun kv => decide (wlookup kv.1 r = some kv.2))

/-- Modelled from the spec: the external `wmi` client library executes a
class call with keyword filters (`wmi_class(**kwargs)`) as an exact-match
selection over the instances of the class — "exact-match filter semantics
only — no range/wildcard support".  The instrumentation backend is the map
`store` from class names to instance lists. -/
def wmiClassCall (store : String → List WRecord) (className : String)
    (filters : List (String × WValue)) : List WRecord :=
  (store className).filter (fun r => recordMatches r filters)

/-- Embeds `WMIWrapper.get_class`: `wmi_class = getattr(conn, class_name);
return list(wmi_class(**kwargs))` — a pass-through of the filters to the
library's class call. -/
def get_class (store : String → List WRecord) (className : String)
    (filters : List (String × WValue)) : List WRecord :=
  wmiClassCall store className filters

/-- Embeds `WMIWrapper.get_operating_system`:
`results[0] if results else None` over `get_class("Win32_OperatingSystem")`. -/
def get_operating_system (store : String → List WRecord) : Option WRecord :=
  match get_class store "Win32_OperatingSystem" [] with
  | [] => none
  | r :: _ => some r

/-- Embeds `WMIWrapper.get_computer_system`:
`results[0] if results else None` over `get_class("Win32_ComputerSystem")`. -/
def get_computer_system (store : String → List WRecord) : Option WRecord :=
  match get_class store "Win32_ComputerSystem" [] with
  | [] => none
  | r :: _ => some r

/-- Embeds `WMIWrapper.get_bios`:
`results[0] if results else None` over `get_class("Win32_BIOS")`. -/
def get_bios (store : String → List WRecord) : Option WRecord :=
  match get_class store "Win32_BIOS" [] with
  | [] => none
  | r :: _ => some r

/-! ## Dictionary conversion (`wmi_object_to_dict`, `wmi_cli/wmi_wrapper.py`) -/

/-- The observable behaviour of `getattr` on one attribute of a WMI object:
a plain value, a callable (method), or an access that raises. -/
inductive AttrVal where
  | val : WValue → AttrVal
  | method : AttrVal
  | raises : AttrVal
deriving DecidableEq

/-- A WMI object: its attribute map and the property-name list produced by
`dir(wmi_object)`. -/
structure WMIObj where
  attrs : String → AttrVal
  dirProps : List String

/-- The property list `wmi_object_to_dict` iterates over: the given
allow-list, or all `dir` entries not starting with an underscore. -/
def dictProps (obj : WMIObj) (properties : Option (List String)) : List String :=
  match properties with
  | none => obj.dirProps.filter (fun p => ¬ p.startsWith "_")
  | some ps => ps

/-- One iteration of the conversion loop: a raising access contributes
`(prop, None)`, a callable is skipped, a value is kept. -/
def toDictEntry (obj : WMIObj) (p : String) : Option (String × Option WValue) :=
  match obj.attrs p with
  | .raises => some (p, none)
  | .method => none
  | .val v => some (p, some v)

/-- Embeds `wmi_object_to_dict` from `wmi_cli/wmi_wrapper.py`. -/
def wmi_object_to_dict (obj : WMIObj) (properties : Option (List String)) :
    List (String × Option WValue) :=
  (dictProps obj properties).filterMap (toDictEntry obj)

/-- Look up a key in the produced dictionary (first binding wins). -/
def dlookup (p : String) : List (String × Option WValue) → Option (Option WValue)
  | [] => none
  | (k, v) :: rest => if k = p then some v else dlookup p rest

/-! ## Event log reading (`EventLogReader.get_recent_events`,
`wmi_cli/modules.py`) -/

/-- The WQL string built by `get_recent_events`: the `AND Type` clause is
appended only when `event_type` is truthy (neither `None` nor `0`). -/
def eventLogQuery (log_name : String) (event_type : Option ℤ) : String :=
  let q := "SELECT * FROM Win32_NTLogEvent WHERE Logfile = \x27" ++ log_name ++ "\x27"
  match event_type with
  | some t => if t = 0 then q else q ++ " AND Type = " ++ toString t
  | none => q

/-- Embeds `EventLogReader.get_recent_events`: run the query, keep the first
`lim` events (`events[:limit]`), convert each with `wmi_object_to_dict`.
The backend maps each WQL string to its result list. -/
def get_recent_events (backend : String → List WMIObj) (log_name : String)
    (event_type : Option ℤ) (lim : ℕ) : List (List (String × Option WValue)) :=
  let events := backend (eventLogQuery log_name event_type)
  ((events.take lim).map (fun e => wmi_object_to_dict e none))

/-! ## Service listing end-to-end (`list_services`, `wmi_tools.py`) -/

/-- A `Win32_Service` record with the columns selected by the tool. -/
structure ServiceRec where
  Name : String
  DisplayName : String
  State : String
  StartMode : String
  Status : String
deriving DecidableEq

/-- The fixed SELECT clause of the service queries in `wmi_tools.py`. -/
def serviceQueryBase : String :=
  "SELECT Name, DisplayName, State, StartMode, Status FROM Win32_Service"

/-- The WQL string built by `list_services`: a `WHERE State = '...'` clause
is appended only when `state` is truthy (neither `None` nor the empty
string). -/
def listServicesQuery (state : Option String) : String :=
  match state with
  | some s =>
      if s = "" then serviceQueryBase
      else serviceQueryBase ++ " WHERE State = \x27" ++ s ++ "\x27"
  | none => serviceQueryBase

/-- Drop a leading pattern from a character list; `none` when the pattern
is not a leading segment. -/
def dropLeading : List Char → List Char → Option (List Char)
  | [], cs => some cs
  | _ :: _, [] => none
  | p :: ps, c :: cs => if p = c then dropLeading ps cs else none

/-- Strip one trailing single-quote character; `none` when the list does
not end with one. -/
def stripQuoteEnd (cs : List Char) : Option (List Char) :=
  if cs.getLast? = some '\x27' then some cs.dropLast else none

/-- Modelled from the spec: the instrumentation backend executes the WQL
strings that `list_services` builds with exact-match predicate semantics —
an unfiltered `SELECT` returns every service record, and
`WHERE State = 'v'` keeps exactly the records whose `State` equals `v`. -/
def runServiceQuery (records : List ServiceRec) (q : String) : List ServiceRec :=
  if q = serviceQueryBase then records
  else
    match dropLeading (serviceQueryBase ++ " WHERE State = \x27").toList q.toList with
    | none => []
    | some rest =>
        match stripQuoteEnd rest with
        | none => []
        | some v => records.filter (fun r => r.State.toList = v)

/-- The record list selected by `list_services`: the result of running the
built query against the backend. -/
def listServicesSelected (records : List ServiceRec) (state : Option String) :
    List ServiceRec :=
  runServiceQuery records (listServicesQuery state)

/-- Embeds `list_services` from `wmi_tools.py`: build the query, run it, format a
header, the first 20 services (numbered from 1) and a truncation note. -/
def list_services (records : List ServiceRec) (state : Option String) : String :=
  let services := listServicesSelected records state
  let header := "Windows Services (" ++ toString services.length ++ "):\n"
  let body := String.join ((services.take 20).enum.map (fun e =>
    "  " ++ toString (e.1 + 1) ++ ". " ++ e.2.Name ++ " - " ++ e.2.State ++
    "\n     Display: " ++ e.2.DisplayName ++ "\n"))
  let extra := if services.length > 20 then
      "\n  ... and " ++ toString (services.length - 20) ++ " more services\n"
    else ""
  header ++ body ++ extra

/-- The first mocked service record of the end-to-end property. -/
def spoolerRec : ServiceRec :=
  ⟨"Spooler", "Print Spooler", "Running", "Auto", "OK"⟩

/-- The second mocked service record of the end-to-end property. -/
def faxRec : ServiceRec :=
  ⟨"Fax", "Fax Service", "Stopped", "Manual", "OK"⟩

/-! ## Error handling shapes (C6) -/

/-- The data gathered by the `get_system_info` tool before formatting. -/
structure SysData where
  osCaption : String
  osVersion : String
  osArch : String
  csName : String
  csManufacturer : String
  csModel : String
  totalPhysicalMemory : ℕ
  bios : Option (String × String)

/-- The body of the `get_system_info` formatting block (`wmi_tools.py`). -/
def renderSysInfo (d : SysData) : String :=
  "System Information:\n" ++
  "  OS: " ++ d.osCaption ++ " " ++ d.osVersion ++ "\n" ++
  "  Computer: " ++ d.csName ++ "\n" ++
  "  Manufacturer: " ++ d.csManufacturer ++ "\n" ++
  "  Model: " ++ d.csModel ++ "\n" ++
  "  Architecture: " ++ d.osArch ++ "\n" ++
  "  Memory: " ++ format_bytes d.totalPhysicalMemory ++ "\n" ++
  "  BIOS: " ++ (match d.bios with | some b => b.1 | none => "N/A") ++ "\n" ++
  "  Serial Number: " ++ (match d.bios with | some b => b.2 | none => "N/A") ++ "\n"

/-- The `get_system_info` agent tool (`wmi_tools.py`): the whole body sits
in `try: ... except Exception as e: return f"Error getting system info:
{str(e)}"`, so a raising WMI call (`Except.error`) becomes an error string
and nothing propagates. -/
def get_system_info (attempt : Except String SysData) : String :=
  match attempt with
  | .ok d => renderSysInfo d
  | .error e => "Error getting system info: " ++ e

/-- The `query` CLI command (`wmi_cli/cli.py`): on any exception it prints
an error message and raises `typer.Exit(1)`, modelled as `Except.error 1`
(the non-zero process exit code); on success the results pass through to
rendering. -/
def cliQueryCmd (attempt : Except String (List WRecord)) : Except ℕ (List WRecord) :=
  match attempt with
  | .ok rs => .ok rs
  | .error _ => .error 1

/-- Embeds `ServiceManager.start_service` (`wmi_cli/modules.py`): there is no
`try` block — an exception from `get_services` propagates unchanged, and an
empty result raises `ValueError(f"Service '{service_name}' not found")`;
otherwise `services[0].StartService()` runs (its success is modelled by
returning the service record). -/
def start_service (fetched : Except String (List ServiceRec)) (service_name : String) :
    Except String ServiceRec :=
  match fetched with
  | .error e => .error e
  | .ok [] => .error ("Service \x27" ++ service_name ++ "\x27 not found")
  | .ok (svc :: _) => .ok svc

/-! ## Connection lifecycle (`WMIWrapper.__init__` / `get_connection`) -/

/-- A connection handle: its identity and the parameters it was opened
with. -/
structure WMIConn where
  id : ℕ
  computer : String
  ns : String
deriving DecidableEq

/-- The mutable state of one `WMIWrapper` instance. -/
structure WrapperState where
  computer : String
  ns : String
  connection : Option WMIConn
deriving DecidableEq

/-- A supply of fresh connection identities, standing for the outside
world in which `wmi.WMI(...)` creates genuinely new handles. -/
structure ConnWorld where
  nextId : ℕ
deriving DecidableEq

/-- Embeds `WMIWrapper.__init__`: stores the target and sets `_connection = None`
(no connection is created yet). -/
def wrapperInit (computer ns : String) : WrapperState :=
  ⟨computer, ns, none⟩

/-- Embeds `WMIWrapper.get_connection`: `if self._connection is None:
self._connection = wmi.WMI(...)` — creates a handle only when none is
stored, otherwise returns the stored one and consumes nothing. -/
def get_connection (w : WrapperState) (world : ConnWorld) :
    WMIConn × WrapperState × ConnWorld :=
  match w.connection with
  | some c => (c, w, world)
  | none =>
      let c : WMIConn := ⟨world.nextId, w.computer, w.ns⟩
      (c, { w with connection := some c }, ⟨world.nextId + 1⟩)

/-! ## Uptime parsing (`SystemMonitor.get_uptime`, `wmi_cli/modules.py`) -/

/-- The prefix of a character list before the first `'.'` — the value of
Python `s.split('.')[0]`. -/
def takeBeforeDot : List Char → List Char
  | [] => []
  | c :: cs => if c = '.' then [] else c :: takeBeforeDot cs

/-- Read a list of decimal digit characters as a natural number. -/
def digitsToNat (cs : List Char) : ℕ :=
  cs.foldl (fun acc c => acc * 10 + (c.toNat - 48)) 0

/-- A parsed `YYYYMMDDHHMMSS` timestamp. -/
structure DateTime14 where
  year : ℕ
  month : ℕ
  day : ℕ
  hour : ℕ
  minute : ℕ
  second : ℕ
deriving DecidableEq

/-- Gregorian leap-year rule, as in Python's `datetime`. -/
def isLeapYear (y : ℕ) : Bool :=
  y % 4 == 0 && (y % 100 != 0 || y % 400 == 0)

/-- Days in a month of a given year. -/
def daysInMonth (y m : ℕ) : ℕ :=
  if m = 2 then (if isLeapYear y then 29 else 28)
  else if m = 4 ∨ m = 6 ∨ m = 9 ∨ m = 11 then 30
  else 31

/-- Days in the months of year `y` strictly before month `m`. -/
def daysBeforeMonth (y m : ℕ) : ℕ :=
  (List.range (m - 1)).foldl (fun acc i => acc + daysInMonth y (i + 1)) 0

/-- Proleptic Gregorian ordinal of a date, as in
`datetime.date.toordinal`. -/
def toOrdinalDay (dt : DateTime14) : ℕ :=
  let y := dt.year - 1
  365 * y + y / 4 - y / 100 + y / 400 + daysBeforeMonth dt.year dt.month + dt.day

/-- Seconds represented by a datetime, counted from the proleptic origin;
differences of these are exactly Python `datetime` subtraction in
seconds. -/
def dtToSeconds (dt : DateTime14) : ℕ :=
  ((toOrdinalDay dt) * 24 + dt.hour) * 3600 + dt.minute * 60 + dt.second

/-- The field values `strptime` would validate for the fixed format. -/
def validDT (dt : DateTime14) : Bool :=
  decide (1 ≤ dt.year) && decide (dt.year ≤ 9999) &&
  decide (1 ≤ dt.month) && decide (dt.month ≤ 12) &&
  decide (1 ≤ dt.day) && decide (dt.day ≤ daysInMonth dt.year dt.month) &&
  decide (dt.hour ≤ 23) && decide (dt.minute ≤ 59) && decide (dt.second ≤ 59)

/-- The fixed-width fields of a 14-digit string, in
`YYYYMMDDHHMMSS` order. -/
def fieldsOf14 (cs : List Char) : DateTime14 :=
  ⟨digitsToNat (cs.take 4), digitsToNat ((cs.drop 4).take 2),
   digitsToNat ((cs.drop 6).take 2), digitsToNat ((cs.drop 8).take 2),
   digitsToNat ((cs.drop 10).take 2), digitsToNat ((cs.drop 12).take 2)⟩

/-- Embeds `datetime.strptime(s, "%Y%m%d%H%M%S")`: exactly 14 digits with fields
in range, else a `ValueError` (`none`). -/
def strptime14 (cs : List Char) : Option DateTime14 :=
  if cs.length = 14 ∧ cs.all Char.isDigit then
    let dt := fieldsOf14 cs
    if validDT dt then some dt else none
  else none

/-- The dictionary built by `SystemMonitor.get_uptime`. -/
structure UptimeInfo where
  boot_time : DateTime14
  uptime_seconds : ℤ
  uptime_days : ℤ
  uptime_hours : ℤ
  uptime_minutes : ℤ
deriving DecidableEq

/-- Embeds `SystemMonitor.get_uptime`: truncate `LastBootUpTime` at the first
decimal point, parse the prefix with the fixed format, and report
`now - boot_time` (a Python `timedelta`, whose `days` is a floor division
and whose `seconds` is the non-negative remainder). `none` models the
`ValueError` escaping when the prefix does not parse. -/
def get_uptime (lastBootUpTime : List Char) (now : DateTime14) : Option UptimeInfo :=
  match strptime14 (takeBeforeDot lastBootUpTime) with
  | none => none
  | some boot =>
      let diff : ℤ := (dtToSeconds now : ℤ) - (dtToSeconds boot : ℤ)
      let secs : ℤ := diff.emod 86400
      some ⟨boot, diff, diff.fdiv 86400, secs / 3600, (secs % 3600) / 60⟩

/-! ## Helper lemmas -/

/-- The mantissa comparison of the spec, reduced to a natural-number
comparison. -/
theorem mantissa_lt_iff (n k : ℕ) :
    ((n : ℚ) / 1024 ^ k < 1024) ↔ n < 1024 ^ (k + 1) := by
  rw [div_lt_iff₀ (by positivity)]
  have h2 : ((1024 : ℚ) * 1024 ^ k) = ((1024 ^ (k + 1) : ℕ) : ℚ) := by
    push_cast
    ring
  rw [h2, Nat.cast_lt]

/-- A key of the dictionary built by the conversion loop reflects the
attribute behaviour of the object. -/
theorem dlookup_filterMap_toDictEntry (obj : WMIObj) (props : List String) (p : String) :
    dlookup p (props.filterMap (toDictEntry obj)) =
      if p ∈ props then
        (match obj.attrs p with
         | .val v => some (some v)
         | .method => none
         | .raises => some none)
      else none := by
  induction props with
  | nil => simp [dlookup]
  | cons q qs ih =>
    by_cases hq : q = p
    · subst hq
      rw [List.filterMap_cons]
      cases hattr : obj.attrs q <;>
        simp [toDictEntry, hattr, dlookup, ih, ite_self]
    · rw [List.filterMap_cons]
      have hpq : p ≠ q := fun h => hq h.symm
      have hmem : (p ∈ q :: qs) ↔ (p ∈ qs) := by simp [List.mem_cons, hpq]
      cases hattr : obj.attrs q <;>
        simp only [toDictEntry, hattr, dlookup, hq, ih, hmem, if_false, if_neg hq]

/-- Truncation at the first decimal point recovers a dot-free prefix. -/
theorem takeBeforeDot_append (d rest : List Char) (hd : '.' ∉ d) :
    takeBeforeDot (d ++ '.' :: rest) = d := by
  induction d with
  | nil => simp [takeBeforeDot]
  | cons c cs ih =>
    have hc : c ≠ '.' := fun h => hd (h ▸ List.mem_cons_self c cs)
    have hcs : '.' ∉ cs := fun h => hd (List.mem_cons_of_mem c h)
    simp [takeBeforeDot, hc, ih hcs]

/-- A class fetch with no filters returns the whole instance list. -/
theorem get_class_no_filters (store : String → List WRecord) (className : String) :
    get_class store className [] = store className := by
  simp [get_class, wmiClassCall, recordMatches]

/-! ## Claim theorems -/

/-- C1, counterexample: the claim says every used-percentage computation
returns 0 when the total size is 0, but `SystemMonitor.get_memory_info`
performs the unguarded division `(used_memory / total_memory) * 100` and
faults with a `ZeroDivisionError` (modelled by `none`) when
`TotalPhysicalMemory` is 0 — it does not return a dictionary with
percentage 0. -/
theorem get_memory_info_zero_total_faults : get_memory_info 0 0 = none := rfl

/-- C1, amended: the `disks` CLI command and the `get_disk_info` agent tool
guard their used-percentage computations and return 0 when the total is 0;
`SystemMonitor.get_disk_usage` never divides by a zero total because it
skips disks whose `Size` is null or zero (producing no row for them,
rather than a row with percentage 0); `SystemMonitor.get_memory_info` is
unguarded and faults when the total is 0. -/
theorem used_pct_zero_total_guard (free : ℤ) (d : LogicalDisk)
    (hd : d.Size = none ∨ d.Size = some 0) :
    disksUsedPct 0 free = 0 ∧
    get_disk_info_used_pct 0 free = 0 ∧
    get_memory_info 0 free = none ∧
    get_disk_usage [d] = [] := by
  refine ⟨rfl, rfl, rfl, ?_⟩
  rcases hd with h | h <;> simp [get_disk_usage, h]

/-- C1, witness for the amended theorem at a concrete disk with zero
size. -/
theorem used_pct_zero_total_guard_witness :
    ((⟨"C:", none, "NTFS", some 0, none⟩ : LogicalDisk).Size = none ∨
      (⟨"C:", none, "NTFS", some 0, none⟩ : LogicalDisk).Size = some 0) ∧
    (disksUsedPct 0 7 = 0 ∧
     get_disk_info_used_pct 0 7 = 0 ∧
     get_memory_info 0 7 = none ∧
     get_disk_usage [⟨"C:", none, "NTFS", some 0, none⟩] = []) :=
  ⟨Or.inr rfl, used_pct_zero_total_guard 7 ⟨"C:", none, "NTFS", some 0, none⟩ (Or.inr rfl)⟩

/-- C2, counterexample: the claim quantifies over every non-negative
integer, but at `n = 1024 ^ 6` the code renders `"1024.00 PB"` whose
mantissa `n / 1024 ^ 5 = 1024` is not strictly less than 1024 — no unit of
the ladder keeps the mantissa below 1024 there, so the claimed unit does
not exist and the output violates the claimed bound. -/
theorem format_bytes_pb_overflow :
    format_bytes (1024 ^ 6) = "1024.00 PB" ∧
    ¬ (((1024 ^ 6 : ℕ) : ℚ) / 1024 ^ smallestUnitIndex (1024 ^ 6) < 1024) := by
  constructor
  · decide
  · have h : smallestUnitIndex (1024 ^ 6) = 5 := by decide
    rw [h, mantissa_lt_iff]
    norm_num

/-- C2, amended: for every `n < 1024 ^ 6` (the whole range in which some
unit of the ladder keeps the mantissa strictly below 1024),
`format_bytes n` renders the exact mantissa `n / 1024 ^ k` with two
decimal places and the unit of the smallest such index `k`; for larger
inputs the code falls back to PB with a mantissa of 1024 or more. -/
theorem format_bytes_smallest_unit (n : ℕ) (h : n < 1024 ^ 6) :
    format_bytes n =
      toFixed2 n (1024 ^ smallestUnitIndex n) ++ " " ++ unitOfIndex (smallestUnitIndex n) ∧
    ((n : ℚ) / 1024 ^ smallestUnitIndex n < 1024) ∧
    ∀ j, j < smallestUnitIndex n → ¬ ((n : ℚ) / 1024 ^ j < 1024) := by
  have p2 : (1024 : ℕ) ^ 2 = 1048576 := by norm_num
  have p3 : (1024 : ℕ) ^ 3 = 1073741824 := by norm_num
  have p4 : (1024 : ℕ) ^ 4 = 1099511627776 := by norm_num
  have p5 : (1024 : ℕ) ^ 5 = 1125899906842624 := by norm_num
  have p6 : (1024 : ℕ) ^ 6 = 1152921504606846976 := by norm_num
  have sP : (" " ++ "PB" : String) = " PB" := rfl
  have hmin : ∀ k, ¬ n < 1024 ^ k →
      ∀ j, j < k → ¬ ((n : ℚ) / 1024 ^ j < 1024) := by
    intro k hk j hj
    rw [mantissa_lt_iff, not_lt]
    exact le_trans (Nat.pow_le_pow_right (by norm_num) (by omega)) (not_lt.mp hk)
  rw [p6] at h
  by_cases h0 : n < 1024
  · have hi : smallestUnitIndex n = 0 := by
      simp only [smallestUnitIndex, p2, p3, p4, p5]
      split_ifs <;> omega
    rw [hi]
    refine ⟨?_, ?_, fun j hj => absurd hj (Nat.not_lt_zero j)⟩
    · simp only [format_bytes, fbUnits, formatBytesGo, unitOfIndex]
      rw [if_pos (by omega)]
      norm_num
    · rw [mantissa_lt_iff]
      simpa using h0
  · by_cases h1 : n < 1048576
    · have hi : smallestUnitIndex n = 1 := by
        simp only [smallestUnitIndex, p2, p3, p4, p5]
        split_ifs <;> omega
      rw [hi]
      refine ⟨?_, (mantissa_lt_iff n 1).mpr (by rw [p2]; omega),
        hmin 1 (by simpa using h0)⟩
      simp only [format_bytes, fbUnits, formatBytesGo, unitOfIndex]
      rw [if_neg (by omega), if_pos (by omega)]
      norm_num
    · by_cases h2 : n < 1073741824
      · have hi : smallestUnitIndex n = 2 := by
          simp only [smallestUnitIndex, p2, p3, p4, p5]
          split_ifs <;> omega
        rw [hi]
        refine ⟨?_, (mantissa_lt_iff n 2).mpr (by rw [p3]; omega),
          hmin 2 (by rw [p2]; omega)⟩
        simp only [format_bytes, fbUnits, formatBytesGo, unitOfIndex]
        rw [if_neg (by omega), if_neg (by omega), if_pos (by omega)]
        norm_num
      · by_cases h3 : n < 1099511627776
        · have hi : smallestUnitIndex n = 3 := by
            simp only [smallestUnitIndex, p2, p3, p4, p5]
            split_ifs <;> omega
          rw [hi]
          refine ⟨?_, (mantissa_lt_iff n 3).mpr (by rw [p4]; omega),
            hmin 3 (by rw [p3]; omega)⟩
          simp only [format_bytes, fbUnits, formatBytesGo, unitOfIndex]
          rw [if_neg (by omega), if_neg (by omega), if_neg (by omega),
            if_pos (by omega)]
          norm_num
        · by_cases h4 : n < 1125899906842624
          · have hi : smallestUnitIndex n = 4 := by
              simp only [smallestUnitIndex, p2, p3, p4, p5]
              split_ifs <;> omega
            rw [hi]
            refine ⟨?_, (mantissa_lt_iff n 4).mpr (by rw [p5]; omega),
              hmin 4 (by rw [p4]; omega)⟩
            simp only [format_bytes, fbUnits, formatBytesGo, unitOfIndex]
            rw [if_neg (by omega), if_neg (by omega), if_neg (by omega),
              if_neg (by omega), if_pos (by omega)]
            norm_num
          · have hi : smallestUnitIndex n = 5 := by
              simp only [smallestUnitIndex, p2, p3, p4, p5]
              split_ifs <;> omega
            rw [hi]
            refine ⟨?_, (mantissa_lt_iff n 5).mpr (by rw [p6]; omega),
              hmin 5 (by rw [p5]; omega)⟩
            simp only [format_bytes, fbUnits, formatBytesGo, unitOfIndex]
            rw [if_neg (by omega), if_neg (by omega), if_neg (by omega),
              if_neg (by omega), if_neg (by omega), String.append_assoc, sP]
            norm_num

/-- C2, witness for the amended theorem at the claim's own example
`n = 1536`. -/
theorem format_bytes_smallest_unit_witness :
    1536 < 1024 ^ 6 ∧
    format_bytes 1536 =
      toFixed2 1536 (1024 ^ smallestUnitIndex 1536) ++ " " ++
        unitOfIndex (smallestUnitIndex 1536) ∧
    format_bytes 1536 = "1.50 KB" ∧ format_bytes 0 = "0.00 B" :=
  ⟨by norm_num, (format_bytes_smallest_unit 1536 (by norm_num)).1, by decide, by decide⟩

/-- C3, confirmed: fetching a class through `WMIWrapper.get_class` with a
filter mapping returns exactly the records whose named properties equal
the given values, and in particular a filter `Name = "X"` never selects a
record whose `Name` is `"XY"` (substring/prefix matches are excluded). -/
theorem get_class_exact_match_filter :
    (∀ (store : String → List WRecord) (className : String)
        (filters : List (String × WValue)) (r : WRecord),
      r ∈ get_class store className filters ↔
        (r ∈ store className ∧ ∀ kv ∈ filters, wlookup kv.1 r = some kv.2)) ∧
    get_class (fun _ => [[("Name", WValue.str "XY")]]) "Win32_Service"
      [("Name", WValue.str "X")] = [] := by
  constructor
  · intro store className filters r
    simp [get_class, wmiClassCall, List.mem_filter, recordMatches,
      List.all_eq_true, decide_eq_true_eq]
  · decide

/-- C3, witness: the exact-match characterisation applied at a concrete
store — a record whose `Name` equals `"X"` is selected by the filter
`Name = "X"`. -/
theorem get_class_exact_match_filter_witness :
    [("Name", WValue.str "X")] ∈
      get_class (fun _ => [[("Name", WValue.str "X")]]) "Win32_Service"
        [("Name", WValue.str "X")] :=
  (get_class_exact_match_filter.1 (fun _ => [[("Name", WValue.str "X")]])
    "Win32_Service" [("Name", WValue.str "X")] [("Name", WValue.str "X")]).mpr
    ⟨by decide, by decide⟩

/-- C4, confirmed: in the mapping produced by `wmi_object_to_dict`, no
callable (method-valued) property ever appears as a key, and every
requested property whose access raises is mapped to null (`some none`)
instead of propagating the exception. -/
theorem to_dict_methods_excluded_raises_null (obj : WMIObj)
    (properties : Option (List String)) (p : String) :
    (obj.attrs p = AttrVal.method →
      dlookup p (wmi_object_to_dict obj properties) = none) ∧
    (obj.attrs p = AttrVal.raises → p ∈ dictProps obj properties →
      dlookup p (wmi_object_to_dict obj properties) = some none) := by
  constructor
  · intro hm
    rw [wmi_object_to_dict, dlookup_filterMap_toDictEntry, hm]
    simp
  · intro hr hmem
    rw [wmi_object_to_dict, dlookup_filterMap_toDictEntry, hr, if_pos hmem]

/-- C4, witness: a concrete object with a value, a method and a raising
property, converted with an explicit allow-list. -/
theorem to_dict_methods_excluded_raises_null_witness :
    dlookup "Kill"
      (wmi_object_to_dict
        ⟨fun p => if p = "Kill" then AttrVal.method
                  else if p = "Secret" then AttrVal.raises
                  else AttrVal.val (WValue.str "v"), []⟩
        (some ["Name", "Kill", "Secret"])) = none ∧
    dlookup "Secret"
      (wmi_object_to_dict
        ⟨fun p => if p = "Kill" then AttrVal.method
                  else if p = "Secret" then AttrVal.raises
                  else AttrVal.val (WValue.str "v"), []⟩
        (some ["Name", "Kill", "Secret"])) = some none :=
  ⟨(to_dict_methods_excluded_raises_null _ (some ["Name", "Kill", "Secret"]) "Kill").1
      (by decide),
   (to_dict_methods_excluded_raises_null _ (some ["Name", "Kill", "Secret"]) "Secret").2
      (by decide) (by decide)⟩

/-- C5, confirmed: with a backend holding exactly the two mocked service
records (Spooler/Running and Fax/Stopped), `list_services` with
`state = "Running"` selects exactly the Spooler record, and its formatted
output lists Spooler alone. -/
theorem list_services_running_spooler :
    listServicesSelected [spoolerRec, faxRec] (some "Running") = [spoolerRec] ∧
    list_services [spoolerRec, faxRec] (some "Running") =
      "Windows Services (1):\n  1. Spooler - Running\n     Display: Print Spooler\n" := by
  constructor
  · decide
  · decide

/-- C6, counterexample: the claim says every call in every layer catches
all exceptions, but `ServiceManager.start_service` raises
`ValueError("Service 'Spooler' not found")` to its caller when the fetch
returns no record — the domain-module layer lets exceptions escape. -/
theorem start_service_raises_uncaught :
    start_service (Except.ok []) "Spooler" =
      Except.error "Service \x27Spooler\x27 not found" := rfl

/-- C6, amended: the CLI commands and agent tools catch all exceptions —
the `get_system_info` tool converts any underlying exception into an
`"Error getting system info: ..."` string and the `query` CLI command
converts it into exit code 1 — but the shim and the domain modules do
not: `ServiceManager.start_service` propagates underlying exceptions
unchanged and raises `ValueError` itself on a missing service. -/
theorem layers_catch_or_propagate (e service_name : String) :
    get_system_info (Except.error e) = "Error getting system info: " ++ e ∧
    cliQueryCmd (Except.error e) = Except.error 1 ∧
    start_service (Except.error e) service_name = Except.error e :=
  ⟨rfl, rfl, rfl⟩

/-- C7, confirmed: `__init__` stores no connection; `get_connection`
creates the handle on first use (consuming one fresh identity) and every
later call on the same instance returns that same handle with the state
and the world unchanged — the connection is created at most once per
wrapper instance. -/
theorem connection_created_at_most_once (computer ns : String) (world : ConnWorld) :
    (wrapperInit computer ns).connection = none ∧
    (∀ (w : WrapperState) (s : ConnWorld) (c : WMIConn),
      w.connection = some c → get_connection w s = (c, w, s)) ∧
    get_connection ((get_connection (wrapperInit computer ns) world).2.1)
        ((get_connection (wrapperInit computer ns) world).2.2) =
      get_connection (wrapperInit computer ns) world ∧
    (get_connection (wrapperInit computer ns) world).2.1.connection =
      some (get_connection (wrapperInit computer ns) world).1 ∧
    (get_connection (wrapperInit computer ns) world).2.2.nextId = world.nextId + 1 := by
  refine ⟨rfl, ?_, rfl, rfl, rfl⟩
  intro w s c h
  simp [get_connection, h]

/-- C7, witness: a wrapper that already holds handle 5 returns it
unchanged, consuming nothing. -/
theorem connection_created_at_most_once_witness :
    (⟨".", "root\\cimv2", some ⟨5, ".", "root\\cimv2"⟩⟩ : WrapperState).connection =
      some ⟨5, ".", "root\\cimv2"⟩ ∧
    get_connection ⟨".", "root\\cimv2", some ⟨5, ".", "root\\cimv2"⟩⟩ ⟨9⟩ =
      (⟨5, ".", "root\\cimv2"⟩, ⟨".", "root\\cimv2", some ⟨5, ".", "root\\cimv2"⟩⟩, ⟨9⟩) :=
  ⟨rfl, (connection_created_at_most_once "." "root\\cimv2" ⟨9⟩).2.1 _ _ _ rfl⟩

/-- C8, confirmed: when `LastBootUpTime` is a parseable 14-digit
`YYYYMMDDHHMMSS` prefix followed by a decimal point and anything else,
`get_uptime` truncates at the first decimal point, parses the prefix with
the fixed format, and reports the uptime as `now` minus the parsed boot
time (with the timedelta's floor-division day/hour/minute breakdown). -/
theorem get_uptime_truncate_parse_diff (d rest : List Char) (now boot : DateTime14)
    (hparse : strptime14 d = some boot) :
    get_uptime (d ++ '.' :: rest) now =
      some ⟨boot, (dtToSeconds now : ℤ) - (dtToSeconds boot : ℤ),
        ((dtToSeconds now : ℤ) - (dtToSeconds boot : ℤ)).fdiv 86400,
        (((dtToSeconds now : ℤ) - (dtToSeconds boot : ℤ)).emod 86400) / 3600,
        ((((dtToSeconds now : ℤ) - (dtToSeconds boot : ℤ)).emod 86400) % 3600) / 60⟩ := by
  have hnodot : '.' ∉ d := by
    intro hmem
    unfold strptime14 at hparse
    split at hparse
    case isTrue hcnd =>
      have hdig : Char.isDigit '.' = true := List.all_eq_true.mp hcnd.2 _ hmem
      simp at hdig
    case isFalse => exact Option.noConfusion hparse
  unfold get_uptime
  rw [takeBeforeDot_append d rest hnodot, hparse]

/-- C8, witness: the documented sample timestamp
`20231106120000.000000+000` parses to 2023-11-06 12:00:00 and, one day,
one hour, thirty minutes and five seconds later, the reported uptime is
91805 seconds = 1 day, 1 hour, 30 minutes. -/
theorem get_uptime_truncate_parse_diff_witness :
    strptime14 "20231106120000".toList = some ⟨2023, 11, 6, 12, 0, 0⟩ ∧
    get_uptime ("20231106120000".toList ++ '.' :: "000000+000".toList)
        ⟨2023, 11, 7, 13, 30, 5⟩ =
      some ⟨⟨2023, 11, 6, 12, 0, 0⟩,
        (dtToSeconds ⟨2023, 11, 7, 13, 30, 5⟩ : ℤ) -
          (dtToSeconds ⟨2023, 11, 6, 12, 0, 0⟩ : ℤ),
        ((dtToSeconds ⟨2023, 11, 7, 13, 30, 5⟩ : ℤ) -
          (dtToSeconds ⟨2023, 11, 6, 12, 0, 0⟩ : ℤ)).fdiv 86400,
        (((dtToSeconds ⟨2023, 11, 7, 13, 30, 5⟩ : ℤ) -
          (dtToSeconds ⟨2023, 11, 6, 12, 0, 0⟩ : ℤ)).emod 86400) / 3600,
        ((((dtToSeconds ⟨2023, 11, 7, 13, 30, 5⟩ : ℤ) -
          (dtToSeconds ⟨2023, 11, 6, 12, 0, 0⟩ : ℤ)).emod 86400) % 3600) / 60⟩ :=
  ⟨by decide,
   get_uptime_truncate_parse_diff "20231106120000".toList "000000+000".toList
     ⟨2023, 11, 7, 13, 30, 5⟩ ⟨2023, 11, 6, 12, 0, 0⟩ (by decide)⟩

/-- C9, confirmed: `get_recent_events` returns at most `limit` event
dictionaries, and position `i` of the result is exactly the conversion of
position `i` of the underlying query result whenever `i < limit` (and
nothing otherwise) — the first `limit` events, in order. -/
theorem get_recent_events_take_limit (backend : String → List WMIObj)
    (log_name : String) (event_type : Option ℤ) (lim : ℕ) :
    (get_recent_events backend log_name event_type lim).length ≤ lim ∧
    ∀ i : ℕ, (get_recent_events backend log_name event_type lim).get? i =
      if i < lim then
        ((backend (eventLogQuery log_name event_type)).get? i).map
          (fun e => wmi_object_to_dict e none)
      else none := by
  constructor
  · simp only [get_recent_events]
    rw [List.length_map, List.length_take]
    exact Nat.min_le_left _ _
  · intro i
    by_cases hi : i < lim
    · rw [if_pos hi]
      simp only [get_recent_events]
      rw [List.get?_map, List.get?_take hi]
    · rw [if_neg hi]
      simp only [get_recent_events]
      rw [List.get?_map, List.get?_len_le, Option.map_none']
      rw [List.length_take]
      exact le_trans (Nat.min_le_left _ _) (not_lt.mp hi)

/-- C10, confirmed: each singleton getter of the shim returns `None` when
the underlying class fetch is empty and the first element otherwise. -/
theorem singleton_getters_first_or_none (store : String → List WRecord) :
    ((store "Win32_OperatingSystem" = [] → get_operating_system store = none) ∧
     ∀ r rs, store "Win32_OperatingSystem" = r :: rs →
       get_operating_system store = some r) ∧
    ((store "Win32_ComputerSystem" = [] → get_computer_system store = none) ∧
     ∀ r rs, store "Win32_ComputerSystem" = r :: rs →
       get_computer_system store = some r) ∧
    ((store "Win32_BIOS" = [] → get_bios store = none) ∧
     ∀ r rs, store "Win32_BIOS" = r :: rs → get_bios store = some r) := by
  refine ⟨⟨?_, ?_⟩, ⟨?_, ?_⟩, ⟨?_, ?_⟩⟩
  · intro h
    unfold get_operating_system
    rw [get_class_no_filters, h]
  · intro r rs h
    unfold get_operating_system
    rw [get_class_no_filters, h]
  · intro h
    unfold get_computer_system
    rw [get_class_no_filters, h]
  · intro r rs h
    unfold get_computer_system
    rw [get_class_no_filters, h]
  · intro h
    unfold get_bios
    rw [get_class_no_filters, h]
  · intro r rs h
    unfold get_bios
    rw [get_class_no_filters, h]

/-- C10, witness: a store holding one BIOS record and nothing else — the
OS getter returns `none`, the BIOS getter returns the record. -/
theorem singleton_getters_first_or_none_witness :
    get_operating_system
      (fun c => if c = "Win32_BIOS" then [[("Version", WValue.str "1.0")]] else []) =
      none ∧
    get_bios
      (fun c => if c = "Win32_BIOS" then [[("Version", WValue.str "1.0")]] else []) =
      some [("Version", WValue.str "1.0")] :=
  ⟨(singleton_getters_first_or_none _).1.1 (by decide),
   (singleton_getters_first_or_none _).2.2.2 [("Version", WValue.str "1.0")] []
     (by decide)⟩
